import Mathlib

/-!
Verification of the n8n-Workflow evidence-collection and scoring pipeline.

The development shallowly embeds the pure computational core of the
repository:

* `app/processing/score.py` — per-item score components and per-group
  aggregation (`log1p_norm`, `decay_multiplier`, `clamp01`,
  `compute_item_scores`, `aggregate_workflow`);
* `app/processing/ingest.py` — title normalization, evidence grouping,
  the numeric-totals/ratios computation of `run_ingest`, and the
  column-set semantics of the `ON CONFLICT (source_id) DO UPDATE`
  upsert of `upsert_to_db`;
* `app/collectors/youtube_collector.py` and
  `app/collectors/discourse_collector.py` — the retry loops of their
  `_get` helpers, modelled as functions of the finite trace of
  transport responses.

Python floats are idealized as real numbers; `datetime` parsing is
abstracted by the `PTime` type, which records only whether the
timestamp string parses and, if so, its age in days relative to a
frozen "now".
-/

namespace N8n

/-- Abstraction of an ISO-timestamp string relative to a frozen current
time: `bad` is a string that `datetime.fromisoformat` fails to parse,
`age d` is a parseable timestamp whose age `(now - dt)` is `d` days
(negative `d` means a timestamp in the future). -/
inductive PTime where
  | bad : PTime
  | age : ℝ → PTime

/-- Python truthiness-based fallback `a or d` for an optional numeric
field: `None` and `0` are falsy and fall through to the default. -/
noncomputable def orElseNum (a : Option ℝ) (d : ℝ) : ℝ :=
  match a with
  | none => d
  | some x => if x = 0 then d else x

/-- Embedding of `score.py: log1p_norm`. -/
noncomputable def log1p_norm (x : ℝ) : ℝ :=
  Real.log (1 + max 0 x)

/-- Embedding of `score.py: clamp01`. -/
noncomputable def clamp01 (x : ℝ) : ℝ :=
  max 0 (min 1 x)

/-- Embedding of `score.py: decay_multiplier` over the `PTime`
abstraction: an unparseable timestamp yields `1.0`, otherwise
exponential half-life decay of the age in days. -/
noncomputable def decay_multiplier (published_iso : PTime) (half_life_days : ℝ) : ℝ :=
  match published_iso with
  | .bad => 1
  | .age age_days => Real.exp (-(Real.log 2) * age_days / half_life_days)

/-- Python `int()` truncation toward zero, used by the trends branch of
`compute_item_scores`. -/
noncomputable def truncInt (x : ℝ) : ℤ :=
  if 0 ≤ x then ⌊x⌋ else ⌈x⌉

/-- The per-platform metrics mapping of an evidence item (the
well-formed numeric shape consumed by `score.py`). -/
structure Metrics where
  views : Option ℝ
  likes : Option ℝ
  comments : Option ℝ
  replies : Option ℝ
  growth_pct_30d : Option ℝ
  published_at : Option PTime
  first_post_ts : Option PTime
  country : Option String
  interest_over_time : List ℝ

/-- The all-absent metrics mapping. -/
def Metrics.empty : Metrics :=
  ⟨none, none, none, none, none, none, none, none, []⟩

/-- An evidence item as consumed by grouping and scoring. -/
structure EvidenceItem where
  platform : Option String
  title : Option String
  keyword : Option String
  source_id : Option String
  metrics : Metrics

/-- The four per-item components returned by `compute_item_scores`. -/
structure ItemScores where
  V : ℝ
  E : ℝ
  T : ℝ
  D : ℝ

/-- Embedding of `score.py: compute_item_scores`. -/
noncomputable def compute_item_scores (item : EvidenceItem) : ItemScores :=
  let metrics := item.metrics
  let views0 : ℝ := orElseNum metrics.views 0
  let views : ℝ :=
    if item.platform = some "GoogleTrends" then
      ((truncInt (metrics.interest_over_time.sum /
        ((max 1 metrics.interest_over_time.length : ℕ) : ℝ))) : ℝ)
    else views0
  let V_raw := log1p_norm views
  let V_norm := clamp01 (V_raw / 10)
  let likes := orElseNum metrics.likes 0
  let comments := orElseNum metrics.comments (orElseNum metrics.replies 0)
  let like_to_view : ℝ := if views > 0 then likes / views else 0
  let comment_to_view : ℝ := if views > 0 then comments / views else 0
  let E_raw := 0.6 * like_to_view + 0.4 * comment_to_view
  let E_norm := clamp01 (E_raw * 10)
  let growth := orElseNum metrics.growth_pct_30d 0
  let T_raw := Real.tanh growth
  let T_norm := clamp01 ((T_raw + 1) / 2)
  let pub := metrics.published_at.orElse (fun _ => metrics.first_post_ts)
  let D : ℝ :=
    match pub with
    | none => 1
    | some p => decay_multiplier p 30
  ⟨V_norm, E_norm, T_norm, D⟩

/-- The score weights dictionary of `aggregate_workflow`. -/
structure ScoreWeights where
  V : ℝ
  E : ℝ
  T : ℝ

/-- The default weights used when `aggregate_workflow` is called with
`weights=None`. -/
noncomputable def defaultWeights : ScoreWeights :=
  ⟨0.5, 0.3, 0.2⟩

/-- The `score_components` dictionary of a canonical record. -/
structure ScoreComponents where
  V : ℝ
  E : ℝ
  T : ℝ
  decay_multiplier : ℝ

/-- Result of `aggregate_workflow`. -/
structure AggResult where
  popularity_score : ℝ
  score_components : ScoreComponents

/-- Python `sum(lst)/len(lst) if lst else 0.0`. -/
noncomputable def pymean (lst : List ℝ) : ℝ :=
  if lst = [] then 0 else lst.sum / lst.length

/-- Embedding of `score.py: aggregate_workflow`; the per-item loop that
appends each component to `comps` is rendered as a `List.map`. -/
noncomputable def aggregate_workflow (evidence : List EvidenceItem)
    (weights? : Option ScoreWeights) : AggResult :=
  let weights := weights?.getD defaultWeights
  let scores := evidence.map compute_item_scores
  let compsV := scores.map ItemScores.V
  let compsE := scores.map ItemScores.E
  let compsT := scores.map ItemScores.T
  let compsD := scores.map ItemScores.D
  let Vw := if compsV = [] then 0 else pymean compsV
  let Ew := if compsE = [] then 0 else pymean compsE
  let Tw := if compsT = [] then 0 else pymean compsT
  let Dw := if compsD = [] then 1 else pymean compsD
  let raw := weights.V * Vw + weights.E * Ew + weights.T * Tw
  let score := clamp01 (raw * Dw)
  ⟨score, ⟨Vw, Ew, Tw, Dw⟩⟩

lemma clamp01_nonneg (x : ℝ) : 0 ≤ clamp01 x :=
  le_max_left 0 _

lemma clamp01_le_one (x : ℝ) : clamp01 x ≤ 1 :=
  max_le (by norm_num) (min_le_left 1 x)

/-- C1: for every list of well-formed evidence items passed to
`aggregate_workflow` — including the empty list, items with zero views,
and items with arbitrarily large counts — the returned
`popularity_score` lies in `[0, 1]`. -/
theorem C1_popularity_score_in_unit_interval
    (evidence : List EvidenceItem) (weights? : Option ScoreWeights) :
    0 ≤ (aggregate_workflow evidence weights?).popularity_score ∧
      (aggregate_workflow evidence weights?).popularity_score ≤ 1 :=
  ⟨clamp01_nonneg _, clamp01_le_one _⟩

/-- A parsed timestamp that does not lie in the future (its age in days
is nonnegative). -/
def ptimeNonneg : PTime → Prop
  | .bad => True
  | .age d => 0 ≤ d

/-- All timestamps carried by an evidence item denote times not after
the frozen current time. -/
def agesNonneg (it : EvidenceItem) : Prop :=
  (∀ p, it.metrics.published_at = some p → ptimeNonneg p) ∧
    (∀ p, it.metrics.first_post_ts = some p → ptimeNonneg p)

lemma compute_item_scores_D (it : EvidenceItem) :
    (compute_item_scores it).D =
      match it.metrics.published_at.orElse (fun _ => it.metrics.first_post_ts) with
      | none => 1
      | some p => decay_multiplier p 30 :=
  rfl

/-- An evidence item whose `published_at` parses to a timestamp 30 days
in the future. -/
def itemFuture : EvidenceItem :=
  ⟨none, none, none, none,
    { Metrics.empty with published_at := some (.age (-30)) }⟩

/-- C3 counterexample: the claim says the decay component `D` of
`compute_item_scores` never exceeds 1 for any parseable timestamp, but
an item whose `published_at` parses to a time 30 days in the future
gets `D = 2 > 1`. -/
theorem C3_cex_future_timestamp_decay_exceeds_one :
    1 < (compute_item_scores itemFuture).D := by
  rw [compute_item_scores_D]
  show (1 : ℝ) < Real.exp (-(Real.log 2) * (-30) / 30)
  have harg : -(Real.log 2) * (-30) / 30 = Real.log 2 := by ring
  rw [harg, Real.exp_log (by norm_num : (0 : ℝ) < 2)]
  norm_num

/-- C3 (amended): the decay component `D` of `compute_item_scores` is
always strictly positive, and it is at most 1 provided every timestamp
of the item denotes a time not after the current time; a parseable
future timestamp can push `D` above 1. -/
theorem C3_decay_component_positive_and_le_one_for_past
    (it : EvidenceItem) :
    0 < (compute_item_scores it).D ∧
      (agesNonneg it → (compute_item_scores it).D ≤ 1) := by
  rw [compute_item_scores_D]
  rcases hp : it.metrics.published_at with _ | p
  · rcases hf : it.metrics.first_post_ts with _ | q
    · simp [Option.orElse]
    · rcases q with _ | d
      · simp [Option.orElse, decay_multiplier]
      · simp only [Option.orElse, decay_multiplier]
        refine ⟨Real.exp_pos _, fun hnn => ?_⟩
        have hd : (0 : ℝ) ≤ d := hnn.2 _ hf
        apply Real.exp_le_one_iff.mpr
        have hlog : 0 < Real.log 2 := Real.log_pos (by norm_num)
        have : -(Real.log 2) * d ≤ 0 :=
          mul_nonpos_of_nonpos_of_nonneg (by linarith) hd
        exact div_nonpos_of_nonpos_of_nonneg this (by norm_num)
  · rcases p with _ | d
    · simp [Option.orElse, decay_multiplier]
    · simp only [Option.orElse, decay_multiplier]
      refine ⟨Real.exp_pos _, fun hnn => ?_⟩
      have hd : (0 : ℝ) ≤ d := hnn.1 _ hp
      apply Real.exp_le_one_iff.mpr
      have hlog : 0 < Real.log 2 := Real.log_pos (by norm_num)
      have : -(Real.log 2) * d ≤ 0 :=
        mul_nonpos_of_nonpos_of_nonneg (by linarith) hd
      exact div_nonpos_of_nonpos_of_nonneg this (by norm_num)

/-- C3 witness: an item with no timestamps satisfies `agesNonneg`, and
its decay component is positive and at most 1. -/
theorem C3_decay_component_positive_and_le_one_for_past_witness :
    0 < (compute_item_scores (⟨none, none, none, none, Metrics.empty⟩ :
        EvidenceItem)).D ∧
      (compute_item_scores (⟨none, none, none, none, Metrics.empty⟩ :
        EvidenceItem)).D ≤ 1 := by
  have h := C3_decay_component_positive_and_le_one_for_past
    ⟨none, none, none, none, Metrics.empty⟩
  exact ⟨h.1, h.2 ⟨fun p hp => by simp [Metrics.empty] at hp,
    fun p hp => by simp [Metrics.empty] at hp⟩⟩

/-- An evidence item whose `published_at` is exactly 30 days old. -/
def itemHalfLife : EvidenceItem :=
  ⟨none, none, none, none,
    { Metrics.empty with published_at := some (.age 30) }⟩

/-- An evidence item with neither `published_at` nor `first_post_ts`. -/
def itemNoTimestamp : EvidenceItem :=
  ⟨none, none, none, none, Metrics.empty⟩

/-- C4: a timestamp aged exactly `half_life_days` days yields a decay
multiplier of `1/2` (for any nonzero half-life, in particular the
default 30 used by `compute_item_scores`), and an item with neither
`published_at` nor `first_post_ts` yields `D = 1`. -/
theorem C4_half_life_decay_and_missing_timestamp
    (hl : ℝ) (hhl : hl ≠ 0) :
    decay_multiplier (.age hl) hl = 1 / 2 ∧
      (compute_item_scores itemHalfLife).D = 1 / 2 ∧
      (compute_item_scores itemNoTimestamp).D = 1 := by
  have key : ∀ h : ℝ, h ≠ 0 → decay_multiplier (.age h) h = 1 / 2 := by
    intro h hh
    show Real.exp (-(Real.log 2) * h / h) = 1 / 2
    rw [mul_div_assoc, div_self hh, mul_one, Real.exp_neg,
      Real.exp_log (by norm_num : (0 : ℝ) < 2)]
    norm_num
  refine ⟨key hl hhl, ?_, rfl⟩
  rw [compute_item_scores_D]
  show decay_multiplier (.age 30) 30 = 1 / 2
  exact key 30 (by norm_num)

/-- C4 witness: instantiating the half-life at the default 30 days. -/
theorem C4_half_life_decay_and_missing_timestamp_witness :
    decay_multiplier (.age 30) 30 = 1 / 2 ∧
      (compute_item_scores itemHalfLife).D = 1 / 2 ∧
      (compute_item_scores itemNoTimestamp).D = 1 :=
  C4_half_life_decay_and_missing_timestamp 30 (by norm_num)

/-- Arithmetic mean with an explicit default for the empty list, as the
spec's aggregation formula words it. -/
noncomputable def specMean (l : List ℝ) (dflt : ℝ) : ℝ :=
  if l = [] then dflt else l.sum / l.length

/-- The spec's aggregation formula, written from the spec's words for
comparison with `aggregate_workflow`:
`clamp01((0.5·V̄ + 0.3·Ē + 0.2·T̄) · D̄)` where each bar is the
arithmetic mean over the group's items, defaulting to 0 (1 for `D̄`)
when no item contributes. -/
noncomputable def specScore (evidence : List EvidenceItem) : ℝ :=
  clamp01
    ((0.5 * specMean (evidence.map (fun it => (compute_item_scores it).V)) 0 +
        0.3 * specMean (evidence.map (fun it => (compute_item_scores it).E)) 0 +
        0.2 * specMean (evidence.map (fun it => (compute_item_scores it).T)) 0) *
      specMean (evidence.map (fun it => (compute_item_scores it).D)) 1)

/-- C5: with the default weights, `aggregate_workflow` computes exactly
the spec formula `clamp01((0.5·mean V + 0.3·mean E + 0.2·mean T) ·
mean D)`, each mean defaulting to 0 (1 for `D`) on an empty group; in
particular the empty group's components are `V=E=T=0, D=1`. -/
theorem C5_aggregate_matches_spec_formula :
    (∀ evidence : List EvidenceItem,
        (aggregate_workflow evidence none).popularity_score =
          specScore evidence) ∧
      (aggregate_workflow [] none).score_components = ⟨0, 0, 0, 1⟩ := by
  constructor
  · intro evidence
    rcases evidence with _ | ⟨e, es⟩
    · simp [aggregate_workflow, specScore, specMean, pymean, clamp01,
        defaultWeights]
    · simp [aggregate_workflow, specScore, specMean, pymean, clamp01,
        defaultWeights, List.map_map, Function.comp_def]
  · rfl

/-- Python truthiness-based fallback `a or d` for an optional string:
`None` and the empty string are falsy. -/
def pyOrStr (a : Option String) (d : String) : String :=
  match a with
  | none => d
  | some s => if s = "" then d else s

/-- Python regex `\s` on the ASCII range (space, tab, newline, carriage
return, vertical tab, form feed). -/
def isPyWhitespace (c : Char) : Bool :=
  c == ' ' || c == '\t' || c == '\n' || c == '\r' || c == '\x0b' || c == '\x0c'

/-- Characters kept by the regex substitution of `normalize_title`
(anything else is replaced by a space): lower-case letters, digits and
whitespace. -/
def keepChar (c : Char) : Bool :=
  (decide ('a' ≤ c) && decide (c ≤ 'z')) ||
    (decide ('0' ≤ c) && decide (c ≤ '9')) || isPyWhitespace c

/-- The regex substitution `re.sub(r"[^a-z0-9\s]", " ", t)` on one
character. -/
def stripChar (c : Char) : Char :=
  if keepChar c then c else ' '

/-- Split a character sequence at whitespace runs, dropping empty
tokens; `acc` holds the current token reversed. -/
def splitWSAux : List Char → List Char → List (List Char)
  | [], acc => if acc.isEmpty then [] else [acc.reverse]
  | c :: rest, acc =>
    if isPyWhitespace c then
      if acc.isEmpty then splitWSAux rest []
      else acc.reverse :: splitWSAux rest []
    else splitWSAux rest (c :: acc)

/-- Join tokens with single spaces — together with `splitWSAux` this is
`re.sub(r"\s+", " ", t).strip()`. -/
def joinSpace : List (List Char) → List Char
  | [] => []
  | [w] => w
  | w :: ws => w ++ ' ' :: joinSpace ws

/-- Embedding of `ingest.py: normalize_title`: lower-case, replace
non-`[a-z0-9\s]` by spaces, collapse whitespace runs and strip. -/
def normalize_title (t : String) : String :=
  if t = "" then ""
  else
    let lowered := t.data.map Char.toLower
    let replaced := lowered.map stripChar
    String.mk (joinSpace (splitWSAux replaced []))

/-- Line `title = it.get("title") or it.get("keyword") or ""` of
`group_evidence`. -/
def rawTitle (it : EvidenceItem) : String :=
  pyOrStr it.title (pyOrStr it.keyword "")

/-- The group key computed for one item by `group_evidence`; `fresh`
stands for the `str(uuid.uuid4())` drawn when both the normalized title
and the `source_id` are falsy. -/
def itemKey (fresh : String) (it : EvidenceItem) : String :=
  let key := normalize_title (rawTitle it)
  if key = "" then pyOrStr it.source_id fresh else key

/-- Append an item to the group of `key` in an insertion-ordered
association list, creating the group at the end if absent — the
behaviour of `defaultdict(list)` with `groups[key].append(it)`. -/
def addItem (groups : List (String × List EvidenceItem)) (key : String)
    (it : EvidenceItem) : List (String × List EvidenceItem) :=
  match groups with
  | [] => [(key, [it])]
  | (k, l) :: rest =>
    if k = key then (k, l ++ [it]) :: rest
    else (k, l) :: addItem rest key it

/-- The item loop of `group_evidence`; `idx` indexes the fresh-uuid
supply. -/
def groupLoop (fresh : ℕ → String) :
    ℕ → List (String × List EvidenceItem) → List EvidenceItem →
      List (String × List EvidenceItem)
  | _, groups, [] => groups
  | idx, groups, it :: rest =>
    groupLoop fresh (idx + 1) (addItem groups (itemKey (fresh idx) it) it) rest

/-- Embedding of `ingest.py: group_evidence`, parameterized by the
supply of fresh uuid strings. -/
def group_evidence (fresh : ℕ → String) (items : List EvidenceItem) :
    List (String × List EvidenceItem) :=
  groupLoop fresh 0 [] items

lemma addItem_join_perm (gs : List (String × List EvidenceItem))
    (key : String) (it : EvidenceItem) :
    ((addItem gs key it).map Prod.snd).flatten.Perm
      ((gs.map Prod.snd).flatten ++ [it]) := by
  induction gs with
  | nil => simp [addItem]
  | cons hd tl ih =>
    obtain ⟨k, l⟩ := hd
    by_cases hk : k = key
    · simp only [addItem, if_pos hk, List.map_cons, List.flatten_cons]
      rw [List.append_assoc, List.append_assoc]
      exact List.Perm.append_left l List.perm_append_comm
    · simp only [addItem, if_neg hk, List.map_cons, List.flatten_cons]
      rw [List.append_assoc]
      exact List.Perm.append_left l ih

lemma groupLoop_join_perm (fresh : ℕ → String) (items : List EvidenceItem) :
    ∀ (idx : ℕ) (gs : List (String × List EvidenceItem)),
      ((groupLoop fresh idx gs items).map Prod.snd).flatten.Perm
        ((gs.map Prod.snd).flatten ++ items) := by
  induction items with
  | nil => intro idx gs; simp [groupLoop]
  | cons it rest ih =>
    intro idx gs
    have h1 := ih (idx + 1) (addItem gs (itemKey (fresh idx) it) it)
    have h2 := addItem_join_perm gs (itemKey (fresh idx) it) it
    have h3 := h1.trans (List.Perm.append_right rest h2)
    simpa [groupLoop, List.append_assoc] using h3

lemma group_evidence_join_perm (fresh : ℕ → String)
    (items : List EvidenceItem) :
    ((group_evidence fresh items).map Prod.snd).flatten.Perm items := by
  have h := groupLoop_join_perm fresh items 0 []
  simpa [group_evidence] using h

lemma addItem_sublist {gs : List (String × List EvidenceItem)}
    {done : List EvidenceItem}
    (h : ∀ g ∈ gs, g.2.Sublist done) (key : String) (it : EvidenceItem) :
    ∀ g ∈ addItem gs key it, g.2.Sublist (done ++ [it]) := by
  induction gs with
  | nil =>
    intro g hg
    simp only [addItem, List.mem_singleton] at hg
    subst hg
    exact (List.nil_sublist done).append (List.Sublist.refl [it])
  | cons hd tl ih =>
    obtain ⟨k, l⟩ := hd
    intro g hg
    by_cases hk : k = key
    · simp only [addItem, if_pos hk, List.mem_cons] at hg
      rcases hg with hg | hg
      · subst hg
        exact (h (k, l) (List.mem_cons_self _ _)).append (List.Sublist.refl [it])
      · exact ((h g (List.mem_cons_of_mem _ hg)).trans
          (List.sublist_append_left done [it]))
    · simp only [addItem, if_neg hk, List.mem_cons] at hg
      rcases hg with hg | hg
      · subst hg
        exact ((h (k, l) (List.mem_cons_self _ _)).trans
          (List.sublist_append_left done [it]))
      · exact ih (fun g' hg' => h g' (List.mem_cons_of_mem _ hg')) g hg

lemma groupLoop_sublist (fresh : ℕ → String) (items : List EvidenceItem) :
    ∀ (idx : ℕ) (gs : List (String × List EvidenceItem))
      (done : List EvidenceItem),
      (∀ g ∈ gs, g.2.Sublist done) →
      ∀ g ∈ groupLoop fresh idx gs items, g.2.Sublist (done ++ items) := by
  induction items with
  | nil =>
    intro idx gs done h g hg
    simpa using h g hg
  | cons it rest ih =>
    intro idx gs done h g hg
    have step := addItem_sublist h (itemKey (fresh idx) it) it
    have := ih (idx + 1) (addItem gs (itemKey (fresh idx) it) it)
      (done ++ [it]) step g hg
    simpa [List.append_assoc] using this

lemma group_evidence_sublist (fresh : ℕ → String)
    (items : List EvidenceItem) :
    ∀ g ∈ group_evidence fresh items, g.2.Sublist items := by
  intro g hg
  have h := groupLoop_sublist fresh items 0 [] []
    (by intro g hg; simp at hg) g hg
  simpa using h

lemma addItem_keys (gs : List (String × List EvidenceItem)) (key : String)
    (it : EvidenceItem) :
    (addItem gs key it).map Prod.fst = gs.map Prod.fst ∨
      ((addItem gs key it).map Prod.fst = gs.map Prod.fst ++ [key] ∧
        key ∉ gs.map Prod.fst) := by
  induction gs with
  | nil => right; constructor <;> simp [addItem]
  | cons hd tl ih =>
    obtain ⟨k, l⟩ := hd
    by_cases hk : k = key
    · left; simp [addItem, if_pos hk, hk]
    · rcases ih with h | ⟨h1, h2⟩
      · left; simp [addItem, if_neg hk, h]
      · right
        constructor
        · simp [addItem, if_neg hk, h1]
        · simp only [List.map_cons, List.mem_cons]
          rintro (h | h)
          · exact hk h.symm
          · exact h2 h

lemma addItem_keys_nodup {gs : List (String × List EvidenceItem)}
    (h : (gs.map Prod.fst).Nodup) (key : String) (it : EvidenceItem) :
    ((addItem gs key it).map Prod.fst).Nodup := by
  rcases addItem_keys gs key it with heq | ⟨heq, hnotin⟩
  · rw [heq]; exact h
  · rw [heq]
    rw [List.nodup_append]
    exact ⟨h, List.nodup_singleton key, by simpa using hnotin⟩

lemma groupLoop_keys_nodup (fresh : ℕ → String) (items : List EvidenceItem) :
    ∀ (idx : ℕ) (gs : List (String × List EvidenceItem)),
      (gs.map Prod.fst).Nodup →
      ((groupLoop fresh idx gs items).map Prod.fst).Nodup := by
  induction items with
  | nil => intro idx gs h; simpa [groupLoop] using h
  | cons it rest ih =>
    intro idx gs h
    exact ih (idx + 1) _ (addItem_keys_nodup h (itemKey (fresh idx) it) it)

/-- C9: `group_evidence` partitions its input for every fresh-uuid
supply: the concatenation of the groups is a permutation of the input
(no item dropped or duplicated), the group sizes sum to the input
length, each group keeps its items in original arrival order (it is an
order-preserving sublist of the input), and the group keys are
pairwise distinct, so each item occurrence lands in exactly one
group. -/
theorem C9_group_evidence_is_partition (fresh : ℕ → String)
    (items : List EvidenceItem) :
    ((group_evidence fresh items).map Prod.snd).flatten.Perm items ∧
      ((group_evidence fresh items).map (fun g => g.2.length)).sum =
        items.length ∧
      ((group_evidence fresh items).map Prod.snd).Forall
        (fun l => l.Sublist items) ∧
      ((group_evidence fresh items).map Prod.fst).Nodup := by
  refine ⟨group_evidence_join_perm fresh items, ?_, ?_, ?_⟩
  · have hperm := group_evidence_join_perm fresh items
    have hlen := hperm.length_eq
    rw [List.length_flatten] at hlen
    simpa [List.map_map, Function.comp_def] using hlen
  · rw [List.forall_iff_forall_mem]
    intro l hl
    rcases List.mem_map.mp hl with ⟨g, hg, rfl⟩
    exact group_evidence_sublist fresh items g hg
  · exact groupLoop_keys_nodup fresh items 0 [] (by simp)

/-- C6 counterexample item: its title normalizes to the empty string
and its `source_id` is the string "hello". -/
def itemBangHello : EvidenceItem :=
  ⟨none, some "!!!", none, some "hello", Metrics.empty⟩

/-- An item whose title "Hello" normalizes to "hello". -/
def itemHello : EvidenceItem :=
  ⟨none, some "Hello", none, some "y2", Metrics.empty⟩

/-- C6 counterexample: an item with an empty normalized title is keyed
by its `source_id`, but it is NOT always alone in its group — here it
shares the group "hello" with an item whose title normalizes to that
same string, refuting the "never placed in the same group as any other
item" half of the claim. -/
theorem C6_cex_empty_title_item_shares_group :
    normalize_title (rawTitle itemBangHello) = "" ∧
      ((group_evidence (fun _ => "u") [itemBangHello, itemHello]).map
        (fun g => (g.1, g.2.length))) = [("hello", 2)] := by
  constructor
  · decide
  · decide

/-- C6 (amended): an evidence item whose title (or keyword) normalizes
to the empty string is keyed by its own `source_id` when that is
present and nonempty; it shares a group with another item exactly when
that item's group key is the same string, which can happen (same
`source_id`, or a title normalizing to it), so such an item is not
guaranteed a singleton group. -/
theorem C6_empty_title_key_is_source_id (fresh : String)
    (it : EvidenceItem) (s : String)
    (hkey : normalize_title (rawTitle it) = "")
    (hs : it.source_id = some s) (hne : s ≠ "") :
    itemKey fresh it = s := by
  simp [itemKey, hkey, pyOrStr, hs, hne]

/-- C6 witness: a concrete keyword-less item with title "!!!" and
source id "hello" gets group key "hello". -/
theorem C6_empty_title_key_is_source_id_witness :
    itemKey "u" itemBangHello = "hello" :=
  C6_empty_title_key_is_source_id "u" itemBangHello "hello"
    (by decide) (by decide) (by decide)

/-- The whole grouping-and-scoring pass over raw evidence: group, then
score each group with the default weights. -/
noncomputable def pipeline (fresh : ℕ → String) (raw : List EvidenceItem) :
    List (String × AggResult) :=
  (group_evidence fresh raw).map (fun g => (g.1, aggregate_workflow g.2 none))

/-- Two items with the identical title "!!!" but different source ids. -/
def itemBangA : EvidenceItem :=
  ⟨none, some "!!!", none, some "a", Metrics.empty⟩

/-- Same title as `itemBangA`, different `source_id`. -/
def itemBangB : EvidenceItem :=
  ⟨none, some "!!!", none, some "b", Metrics.empty⟩

/-- C8 counterexample: the group key is not a pure function of the
title alone — two items with the same title "!!!" (which normalizes to
the empty string) fall back to their distinct source ids and get
different keys. -/
theorem C8_cex_same_title_different_key :
    rawTitle itemBangA = rawTitle itemBangB ∧
      itemKey "u" itemBangA ≠ itemKey "u" itemBangB := by
  constructor
  · rfl
  · decide

/-- C8 (amended): grouping and scoring are deterministic functions of
the raw evidence — with the clock frozen (timestamp ages are data) and
the fresh-uuid supply fixed, two runs over equal raw evidence produce
equal groups, popularity scores and score components — and for items
whose title normalizes to a nonempty string the group key depends on
the title alone; items whose title normalizes to the empty string fall
back to their `source_id`, so equal titles may still yield different
keys. -/
theorem C8_pipeline_deterministic_and_key_title_pure :
    (∀ (fresh : ℕ → String) (raw₁ raw₂ : List EvidenceItem),
        raw₁ = raw₂ → pipeline fresh raw₁ = pipeline fresh raw₂) ∧
      (∀ (f₁ f₂ : String) (it₁ it₂ : EvidenceItem),
        rawTitle it₁ = rawTitle it₂ →
        normalize_title (rawTitle it₁) ≠ "" →
        itemKey f₁ it₁ = itemKey f₂ it₂) := by
  constructor
  · intro fresh raw₁ raw₂ h
    rw [h]
  · intro f₁ f₂ it₁ it₂ ht hne
    show (if normalize_title (rawTitle it₁) = "" then pyOrStr it₁.source_id f₁
        else normalize_title (rawTitle it₁)) =
      (if normalize_title (rawTitle it₂) = "" then pyOrStr it₂.source_id f₂
        else normalize_title (rawTitle it₂))
    rw [← ht, if_neg hne, if_neg hne]

/-- C8 witness: a concrete double run of the pipeline on a one-item
list agrees, and two items sharing the title "Hello" get the same
group key under different fresh-uuid supplies. -/
theorem C8_pipeline_deterministic_and_key_title_pure_witness :
    pipeline (fun _ => "u") [itemHello] = pipeline (fun _ => "u") [itemHello] ∧
      itemKey "u" itemHello = itemKey "v" itemHello :=
  ⟨C8_pipeline_deterministic_and_key_title_pure.1 (fun _ => "u")
      [itemHello] [itemHello] rfl,
    C8_pipeline_deterministic_and_key_title_pure.2 "u" "v" itemHello itemHello
      rfl (by decide)⟩

/-- One transport response observed by a `_get` attempt: an HTTP 200
with a parseable JSON body, a 200 with an unparseable body, a non-200
status code, or a transport-level error. -/
inductive HttpResponse where
  | ok (body : ℕ) : HttpResponse
  | okUnparseable : HttpResponse
  | status (code : ℕ) : HttpResponse
  | transportError : HttpResponse
deriving DecidableEq

/-- Outcome of `discourse_collector._get`: a parsed payload, or the
empty dict `{}` (returned both for an unparseable 200 body and after
the retry budget is exhausted). This helper never raises. -/
inductive DiscourseResult where
  | payload (body : ℕ) : DiscourseResult
  | emptyDict : DiscourseResult
deriving DecidableEq

/-- Outcome of `youtube_collector._get`: a parsed payload, a JSON
decode error propagating out of `resp.json()`, or the `RuntimeError`
raised after the retry loop ends. -/
inductive YtResult where
  | payload (body : ℕ) : YtResult
  | jsonFault : YtResult
  | runtimeError : YtResult
deriving DecidableEq

/-- Embedding of `discourse_collector.py: _get` as a function of the
attempt budget and the trace of transport responses, one per attempt.
A 429/503 sleeps and retries; any other non-200 status hits
`raise_for_status`, whose exception the `except` clause also catches
and retries; a transport error retries; after `retries` attempts the
loop falls through and returns `{}`. -/
def discourse_get : ℕ → List HttpResponse → DiscourseResult
  | 0, _ => .emptyDict
  | _ + 1, [] => .emptyDict
  | retries + 1, resp :: rest =>
    match resp with
    | .ok body => .payload body
    | .okUnparseable => .emptyDict
    | .status code =>
      if code = 429 ∨ code = 503 then discourse_get retries rest
      else discourse_get retries rest
    | .transportError => discourse_get retries rest

/-- Embedding of `youtube_collector.py: _get`: a 429/403 rotates the
key pool and retries; any other non-200 status raises, is caught by
the `except`, and retries; after `retries` attempts the function
raises `RuntimeError`. -/
def youtube_get : ℕ → List HttpResponse → YtResult
  | 0, _ => .runtimeError
  | _ + 1, [] => .runtimeError
  | retries + 1, resp :: rest =>
    match resp with
    | .ok body => .payload body
    | .okUnparseable => .jsonFault
    | .status code =>
      if code = 429 ∨ code = 403 then youtube_get retries rest
      else youtube_get retries rest
    | .transportError => youtube_get retries rest

/-- Three consecutive 429 responses, then a 200 carrying payload 7. -/
def trace3x429 : List HttpResponse :=
  [.status 429, .status 429, .status 429, .ok 7]

/-- C2 counterexample: with a retry cap of 3, three consecutive 429s
use up all three attempts, so the following 200 is never requested —
the discourse fetch returns the empty dict instead of the 200 payload,
and the youtube fetch raises `RuntimeError`, refuting both the
scenario and the "never raises after exhausting retries" half of the
claim. -/
theorem C2_cex_three_429_exhaust_cap :
    discourse_get 3 trace3x429 = .emptyDict ∧
      youtube_get 3 trace3x429 = .runtimeError := by
  constructor <;> rfl

/-- C2 (amended): with a retry cap of 3 the `_get` helpers make
exactly three attempts. A 200 arriving within the budget (at most two
429s before it) yields its parsed payload from both collectors; three
consecutive 429s exhaust the budget before any further response is
consumed, after which the discourse helper returns the empty dict to
its caller without raising while the youtube helper raises
`RuntimeError` (isolated per query by `collect_seed_queries`). -/
theorem C2_retry_cap_behaviour :
    (∀ (b : ℕ) (rest : List HttpResponse),
        discourse_get 3 (.status 429 :: .status 429 :: .ok b :: rest) =
          .payload b) ∧
      (∀ (b : ℕ) (rest : List HttpResponse),
        youtube_get 3 (.status 429 :: .status 429 :: .ok b :: rest) =
          .payload b) ∧
      (∀ rest : List HttpResponse,
        discourse_get 3 (.status 429 :: .status 429 :: .status 429 :: rest) =
          .emptyDict) ∧
      (∀ rest : List HttpResponse,
        youtube_get 3 (.status 429 :: .status 429 :: .status 429 :: rest) =
          .runtimeError) :=
  ⟨fun _ _ => rfl, fun _ _ => rfl, fun _ => rfl, fun _ => rfl⟩

/-- A loosely-typed metric value as read by the totals loop of
`run_ingest`: absent/None, an integer count, or a non-numeric value on
which `int()` raises. -/
inductive JVal where
  | null : JVal
  | int : ℤ → JVal
  | bad : JVal
deriving DecidableEq

/-- The numeric fields of one evidence item's `metrics` dict as read by
the totals loop of `run_ingest`. -/
structure RawCounts where
  views : JVal
  likes : JVal
  comments : JVal
  replies : JVal
deriving DecidableEq

/-- Python truthiness `a or b` on metric values: `None` and `0` are
falsy; a non-numeric (string) value is truthy. -/
def jOr (a b : JVal) : JVal :=
  match a with
  | .null => b
  | .int n => if n = 0 then b else .int n
  | .bad => .bad

/-- Contribution of `int(v)` inside the guarded `try` of the totals
loop: a non-numeric value makes `int()` raise, the increment is
skipped, and the item contributes zero. -/
def jContrib (v : JVal) : ℤ :=
  match v with
  | .null => 0
  | .int n => n
  | .bad => 0

/-- The `total_views` accumulation of `run_ingest`. -/
def total_views (evidence : List RawCounts) : ℤ :=
  (evidence.map (fun e => jContrib (jOr e.views (.int 0)))).sum

/-- The `total_likes` accumulation of `run_ingest`. -/
def total_likes (evidence : List RawCounts) : ℤ :=
  (evidence.map (fun e => jContrib (jOr e.likes (.int 0)))).sum

/-- The `total_comments` accumulation of `run_ingest`, with the
`comments or replies` fallback. -/
def total_comments (evidence : List RawCounts) : ℤ :=
  (evidence.map (fun e =>
    jContrib (jOr e.comments (jOr e.replies (.int 0))))).sum

/-- The `like_to_view_ratio` computed by `run_ingest`: set only when
`total_views > 0`, otherwise left as `None`. -/
def like_to_view_ratio (evidence : List RawCounts) : Option ℚ :=
  if 0 < total_views evidence then
    some ((total_likes evidence : ℚ) / (total_views evidence : ℚ))
  else none

/-- The `comment_to_view_ratio` computed by `run_ingest`. -/
def comment_to_view_ratio (evidence : List RawCounts) : Option ℚ :=
  if 0 < total_views evidence then
    some ((total_comments evidence : ℚ) / (total_views evidence : ℚ))
  else none

/-- The views column of the C7 scenario: 100, 0, and a non-numeric
value. -/
def groupViews100_0_bad : List RawCounts :=
  [⟨.int 100, .null, .null, .null⟩,
   ⟨.int 0, .null, .null, .null⟩,
   ⟨.bad, .null, .null, .null⟩]

/-- C7: for a group whose items carry views 100, 0 and a non-numeric
value, `total_views` is 100; non-numeric or missing counts contribute
zero to each summed total (for comments, when the `replies` fallback is
also non-numeric or missing); and the derived ratios are set exactly
when the summed views are positive. -/
theorem C7_totals_coercion_and_ratios :
    total_views groupViews100_0_bad = 100 ∧
      (∀ (e : RawCounts) (rest : List RawCounts),
        e.views = .bad ∨ e.views = .null →
          total_views (e :: rest) = total_views rest) ∧
      (∀ (e : RawCounts) (rest : List RawCounts),
        e.likes = .bad ∨ e.likes = .null →
          total_likes (e :: rest) = total_likes rest) ∧
      (∀ (e : RawCounts) (rest : List RawCounts),
        e.comments = .bad ∨ e.comments = .null →
        e.replies = .bad ∨ e.replies = .null →
          total_comments (e :: rest) = total_comments rest) ∧
      (∀ evidence : List RawCounts,
        ((like_to_view_ratio evidence).isSome ↔ 0 < total_views evidence) ∧
        ((comment_to_view_ratio evidence).isSome ↔ 0 < total_views evidence)) := by
  refine ⟨by decide, ?_, ?_, ?_, ?_⟩
  · intro e rest h
    rcases h with h | h <;> simp [total_views, jOr, jContrib, h]
  · intro e rest h
    rcases h with h | h <;> simp [total_likes, jOr, jContrib, h]
  · intro e rest hc hr
    rcases hc with hc | hc <;> rcases hr with hr | hr <;>
      simp [total_comments, jOr, jContrib, hc, hr]
  · intro evidence
    constructor <;>
      [unfold like_to_view_ratio; unfold comment_to_view_ratio] <;>
      by_cases h : 0 < total_views evidence <;> simp [h]

/-- C7 witness: an item whose views, likes, comments and replies are
all missing or non-numeric contributes zero to every total, and an
all-zero group has both ratios unset. -/
theorem C7_totals_coercion_and_ratios_witness :
    total_views [(⟨.bad, .null, .null, .null⟩ : RawCounts)] =
        total_views [] ∧
      total_likes [(⟨.bad, .null, .null, .null⟩ : RawCounts)] =
        total_likes [] ∧
      total_comments [(⟨.bad, .null, .null, .null⟩ : RawCounts)] =
        total_comments [] ∧
      ((like_to_view_ratio []).isSome ↔ 0 < total_views []) :=
  ⟨C7_totals_coercion_and_ratios.2.1 _ [] (Or.inl rfl),
    C7_totals_coercion_and_ratios.2.2.1 _ [] (Or.inr rfl),
    C7_totals_coercion_and_ratios.2.2.2.1 _ [] (Or.inr rfl) (Or.inr rfl),
    (C7_totals_coercion_and_ratios.2.2.2.2 []).1⟩

/-- One row of the `workflows` table as written by `upsert_to_db`.
JSON-valued columns are abstracted as opaque string tokens and the
float score as a rational; only which columns change matters here. -/
structure WorkflowRow where
  id : String
  workflow : String
  platform : Option String
  source_id : Option String
  source_url : Option String
  keywords : List String
  country : Option String
  popularity_metrics : String
  popularity_score : ℚ
  score_components : String
  last_updated : Option String
  evidence_count : ℤ
deriving DecidableEq

/-- The `set_` mapping of the `ON CONFLICT (source_id) DO UPDATE`
statement: the existing row takes the excluded (incoming) row's values
for exactly the ten listed columns; `id` and `source_id` are not in
`update_cols` and keep the existing row's values. -/
def applyConflictUpdate (old incoming : WorkflowRow) : WorkflowRow :=
  { old with
    workflow := incoming.workflow
    platform := incoming.platform
    source_url := incoming.source_url
    keywords := incoming.keywords
    country := incoming.country
    popularity_metrics := incoming.popularity_metrics
    popularity_score := incoming.popularity_score
    score_components := incoming.score_components
    last_updated := incoming.last_updated
    evidence_count := incoming.evidence_count }

/-- Insert-or-update semantics of the upsert keyed on `source_id`: the
first row with a matching `source_id` is updated per
`applyConflictUpdate`, otherwise the row is inserted. -/
def upsertRow : List WorkflowRow → WorkflowRow → List WorkflowRow
  | [], r => [r]
  | t :: rest, r =>
    if t.source_id = r.source_id then applyConflictUpdate t r :: rest
    else t :: upsertRow rest r

/-- C10: when the upsert hits a `source_id` conflict, the conflicting
row is updated in place: `workflow`, `platform`, `source_url`,
`keywords`, `country`, `popularity_metrics`, `popularity_score`,
`score_components`, `last_updated` and `evidence_count` take the
incoming values, while the existing row's `id` and `source_id` are
left unchanged, and no other row is touched. -/
theorem C10_upsert_conflict_updates_all_but_id_and_source_id
    (told incoming : WorkflowRow) (rest : List WorkflowRow)
    (h : told.source_id = incoming.source_id) :
    upsertRow (told :: rest) incoming =
        applyConflictUpdate told incoming :: rest ∧
      (applyConflictUpdate told incoming).id = told.id ∧
      (applyConflictUpdate told incoming).source_id = told.source_id ∧
      (applyConflictUpdate told incoming).workflow = incoming.workflow ∧
      (applyConflictUpdate told incoming).platform = incoming.platform ∧
      (applyConflictUpdate told incoming).source_url = incoming.source_url ∧
      (applyConflictUpdate told incoming).keywords = incoming.keywords ∧
      (applyConflictUpdate told incoming).country = incoming.country ∧
      (applyConflictUpdate told incoming).popularity_metrics =
        incoming.popularity_metrics ∧
      (applyConflictUpdate told incoming).popularity_score =
        incoming.popularity_score ∧
      (applyConflictUpdate told incoming).score_components =
        incoming.score_components ∧
      (applyConflictUpdate told incoming).last_updated =
        incoming.last_updated ∧
      (applyConflictUpdate told incoming).evidence_count =
        incoming.evidence_count := by
  refine ⟨?_, rfl, rfl, rfl, rfl, rfl, rfl, rfl, rfl, rfl, rfl, rfl, rfl⟩
  simp [upsertRow, h]

/-- An existing canonical row for source id "youtube:v1". -/
def rowOld : WorkflowRow :=
  ⟨"id0", "wfA", some "YouTube", some "youtube:v1", some "urlA", [],
    some "US", "mA", 1 / 10, "cA", some "t0", 3⟩

/-- An incoming canonical row for the same source id. -/
def rowNew : WorkflowRow :=
  ⟨"id1", "wfB", some "mixed", some "youtube:v1", some "urlB", ["k"],
    none, "mB", 9 / 10, "cB", some "t1", 5⟩

/-- C10 witness: upserting a concrete incoming row over an existing row
with the same `source_id` keeps the old `id` and `source_id` and takes
every other listed column from the incoming row. -/
theorem C10_upsert_conflict_updates_all_but_id_and_source_id_witness :
    upsertRow (rowOld :: []) rowNew =
        applyConflictUpdate rowOld rowNew :: [] ∧
      (applyConflictUpdate rowOld rowNew).id = rowOld.id ∧
      (applyConflictUpdate rowOld rowNew).source_id = rowOld.source_id ∧
      (applyConflictUpdate rowOld rowNew).workflow = rowNew.workflow ∧
      (applyConflictUpdate rowOld rowNew).platform = rowNew.platform ∧
      (applyConflictUpdate rowOld rowNew).source_url = rowNew.source_url ∧
      (applyConflictUpdate rowOld rowNew).keywords = rowNew.keywords ∧
      (applyConflictUpdate rowOld rowNew).country = rowNew.country ∧
      (applyConflictUpdate rowOld rowNew).popularity_metrics =
        rowNew.popularity_metrics ∧
      (applyConflictUpdate rowOld rowNew).popularity_score =
        rowNew.popularity_score ∧
      (applyConflictUpdate rowOld rowNew).score_components =
        rowNew.score_components ∧
      (applyConflictUpdate rowOld rowNew).last_updated =
        rowNew.last_updated ∧
      (applyConflictUpdate rowOld rowNew).evidence_count =
        rowNew.evidence_count :=
  C10_upsert_conflict_updates_all_but_id_and_source_id rowOld rowNew [] rfl

end N8n
